import Mathlib

/-!
# wAIrrenbuffett — verification of the financial-modeling core

Shallow embedding of the deterministic financial engine of the repository:
`ai_advisor.py` (profile metrics, allocation, stock scoring/ranking) and
`financial_projections.py` (the four year-by-year projections and the
retirement-readiness calculation).  Python floats are modeled by `ℚ`;
Python's `round(x, n)` (round half to even) by `roundTo`; Python's `None`
by `Option`; the `'N/A'` string sentinel for an infinite "years to debt
free" by `none`.
-/

namespace Wairren

/-- Python's `round()` to an integer: round half to even (banker's rounding). -/
def rndEven (q : ℚ) : ℤ :=
  if Int.fract q < 1/2 then ⌊q⌋
  else if 1/2 < Int.fract q then ⌊q⌋ + 1
  else if ⌊q⌋ % 2 = 0 then ⌊q⌋ else ⌊q⌋ + 1

/-- Python's `round(q, n)`. -/
def roundTo (n : ℕ) (q : ℚ) : ℚ := (rndEven (q * (10 : ℚ) ^ n) : ℚ) / (10 : ℚ) ^ n

/-- `round(q, 2)` — the 2-decimal display rounding used for money and percentages. -/
def round2 (q : ℚ) : ℚ := roundTo 2 q

/-- `round(q, 1)` — the 1-decimal rounding used for allocation percentages. -/
def round1 (q : ℚ) : ℚ := roundTo 1 q

lemma abs_rndEven_sub (q : ℚ) : |(rndEven q : ℚ) - q| ≤ 1/2 := by
  have h0 := Int.fract_nonneg q
  have h1 := Int.fract_lt_one q
  have hsf := Int.self_sub_fract q
  unfold rndEven
  split_ifs <;> (rw [abs_le]; push_cast; constructor <;> linarith)

lemma rndEven_intCast (n : ℤ) : rndEven (n : ℚ) = n := by
  unfold rndEven
  simp [Int.fract_intCast]

lemma roundTo_intCast (k : ℕ) (n : ℤ) : roundTo k (n : ℚ) = n := by
  unfold roundTo
  have h : ((n : ℚ) * (10 : ℚ) ^ k) = (((n * 10 ^ k : ℤ) : ℚ)) := by push_cast; ring
  have hp : ((10 : ℚ) ^ k) ≠ 0 := by positivity
  rw [h, rndEven_intCast]
  push_cast
  field_simp

lemma round1_intCast (n : ℤ) : round1 (n : ℚ) = n := roundTo_intCast 1 n

lemma round2_intCast (n : ℤ) : round2 (n : ℚ) = n := roundTo_intCast 2 n

lemma abs_round1_sub (q : ℚ) : |round1 q - q| ≤ 1/20 := by
  have h := abs_rndEven_sub (q * (10 : ℚ) ^ 1)
  have he : round1 q - q = ((rndEven (q * (10 : ℚ) ^ 1) : ℚ) - q * (10 : ℚ) ^ 1) / (10 : ℚ) ^ 1 := by
    unfold round1 roundTo
    field_simp
    ring
  have h10 : |(10 : ℚ) ^ 1| = 10 := by norm_num
  rw [he, abs_div, h10, div_le_iff₀ (by norm_num : (0:ℚ) < 10)]
  linarith

/-! ## Data model (`user_profile.py`, stock records from `market_data.py`) -/

/-- `UserProfile` from `user_profile.py`. -/
structure UserProfile where
  age : ℤ
  location : String
  annual_income : ℚ
  current_savings : ℚ
  monthly_expenses : ℚ
  total_debt : ℚ
  career_field : String
  years_to_retirement : ℕ
  expected_income_growth : ℚ
  marital_status : String
  num_dependents : ℕ
  major_life_goals : List String
  risk_tolerance : String
  investment_horizon : ℕ
  preferred_sectors : List String
  other_notes : String

/-- A stock record as produced by `MarketDataFetcher.get_stock_info`.
`pe_ratio`, `beta` and `market_cap` are read with `.get(..., default)` in
`_score_stock`, so they are `Option`s here; `dividend_yield` and the other
fields are accessed directly. -/
structure Stock where
  ticker : String
  name : String
  sector : String
  current_price : ℚ
  dividend_yield : ℚ
  pe_ratio : Option ℚ
  beta : Option ℚ
  market_cap : Option ℚ

/-! ## `ai_advisor.py` — allocation, profile analysis -/

/-- The stock sub-allocation breakdown returned by `_determine_allocation`. -/
structure AllocationBreakdown where
  large_cap : ℚ
  mid_cap : ℚ
  small_cap : ℚ
  international : ℚ
  bonds : ℚ

/-- The allocation dict returned by `_determine_allocation`. -/
structure Allocation where
  stocks : ℚ
  bonds : ℚ
  breakdown : AllocationBreakdown

/-- `risk_adjustments.get(profile.risk_tolerance, 0)` in `_determine_allocation`. -/
def riskAdjustment (rt : String) : ℤ :=
  if rt = "conservative" then -15
  else if rt = "moderate" then 0
  else if rt = "aggressive" then 15
  else 0

/-- `AIAdvisor._determine_allocation`. -/
def determineAllocation (p : UserProfile) : Allocation :=
  let base : ℤ := 110 - p.age
  let stock_percentage : ℤ := max 30 (min 90 (base + riskAdjustment p.risk_tolerance))
  let bond_percentage : ℤ := 100 - stock_percentage
  let sp : ℚ := stock_percentage
  { stocks := round1 sp
    bonds := round1 (bond_percentage : ℚ)
    breakdown :=
      { large_cap := round1 (sp * (60/100))
        mid_cap := round1 (sp * (25/100))
        small_cap := round1 (sp * (10/100))
        international := round1 (sp * (5/100))
        bonds := round1 (bond_percentage : ℚ) } }

/-- `AIAdvisor._determine_strategy`. -/
def determineStrategy (p : UserProfile) : String :=
  if p.years_to_retirement ≤ 5 then
    "Capital Preservation - Focus on stable dividend stocks and bonds"
  else if p.years_to_retirement ≤ 15 then
    "Balanced Growth - Mix of growth and dividend stocks with some bonds"
  else if p.risk_tolerance = "aggressive" then
    "Aggressive Growth - Focus on high-growth stocks and emerging sectors"
  else if p.risk_tolerance = "conservative" then
    "Conservative Growth - Blue-chip dividend stocks and bonds"
  else
    "Moderate Growth - Diversified portfolio with growth and value stocks"

/-- The reason strings accumulated by `AIAdvisor._assess_risk`. -/
def riskFactors (p : UserProfile) : List String :=
  (if p.annual_income < 50000 then ["Lower income requires more conservative approach"] else [])
  ++ (if p.total_debt / p.annual_income * 100 > 40 then ["High debt-to-income ratio"] else [])
  ++ (if p.current_savings / p.monthly_expenses < 3 then ["Insufficient emergency fund"] else [])
  ++ (if 0 < p.num_dependents then ["Financial responsibility for dependents"] else [])
  ++ (if p.years_to_retirement < 10 then ["Short time horizon for retirement"] else [])

/-- `AIAdvisor._assess_risk`. -/
def assessRisk (p : UserProfile) : String :=
  if 3 ≤ (riskFactors p).length then
    "High Risk - Consider conservative investments and building emergency fund"
  else if 1 ≤ (riskFactors p).length then
    "Moderate Risk - Balance growth with stability"
  else
    "Low Risk - Good position for long-term growth investing"

/-- The `financial_health` sub-dict of `analyze_profile`.  A Python
`float('inf')` for `years_to_debt_free` is displayed as `'N/A'`; the
non-numeric sentinel is modeled by `none`. -/
structure FinancialHealth where
  savings_rate : ℚ
  debt_to_income_ratio : ℚ
  years_to_debt_free : Option ℚ
  emergency_fund_months : ℚ

/-- The analysis dict returned by `analyze_profile` (the optional
`ai_insights` annotation supplied by the LLM collaborator carries no
numeric content and is omitted). -/
structure Analysis where
  financial_health : FinancialHealth
  recommended_allocation : Allocation
  investment_strategy : String
  risk_assessment : String

/-- `AIAdvisor.analyze_profile`. -/
def analyzeProfile (p : UserProfile) : Analysis :=
  let monthly_income := p.annual_income / 12
  let savings_rate := (monthly_income - p.monthly_expenses) / monthly_income * 100
  let debt_to_income_ratio := p.total_debt / p.annual_income * 100
  let years_to_debt_free : Option ℚ :=
    if p.monthly_expenses < monthly_income then
      some (p.total_debt / ((monthly_income - p.monthly_expenses) * 12))
    else none
  { financial_health :=
      { savings_rate := round2 savings_rate
        debt_to_income_ratio := round2 debt_to_income_ratio
        years_to_debt_free := years_to_debt_free.map round2
        emergency_fund_months := round1 (p.current_savings / p.monthly_expenses) }
    recommended_allocation := determineAllocation p
    investment_strategy := determineStrategy p
    risk_assessment := assessRisk p }

/-! ## `ai_advisor.py` — stock scoring and recommendations -/

/-- The case-insensitive sector test
`stock['sector'].lower() in [s.lower() for s in profile.preferred_sectors]`. -/
def sectorMatch (s : Stock) (p : UserProfile) : Bool :=
  (p.preferred_sectors.map String.toLower).contains s.sector.toLower

/-- `AIAdvisor._score_stock`, with the sequential `score` mutations written
as shadowing `let`s.  A Python float truthiness test `x and x > c` becomes
`x ≠ 0 ∧ x > c`. -/
def scoreStock (s : Stock) (p : UserProfile) : ℚ :=
  let score : ℚ := 50
  let score := if sectorMatch s p then score + 15 else score
  let beta := s.beta.getD 1
  let score :=
    if p.risk_tolerance = "conservative" then
      let score := if beta < 8/10 then score + 10
                   else if beta > 12/10 then score - 10
                   else score
      if s.dividend_yield ≠ 0 ∧ s.dividend_yield > 2/100 then score + 15 else score
    else if p.risk_tolerance = "aggressive" then
      (if beta > 12/10 then score + 10 else score) + 5
    else
      let score := if 8/10 ≤ beta ∧ beta ≤ 12/10 then score + 10 else score
      if s.dividend_yield ≠ 0 ∧ s.dividend_yield > 15/1000 then score + 10 else score
  let pe := s.pe_ratio.getD 0
  let score :=
    if pe ≠ 0 ∧ 10 ≤ pe ∧ pe ≤ 25 then score + 10
    else if pe ≠ 0 ∧ pe > 40 then score - 5
    else score
  let mc := s.market_cap.getD 0
  let score :=
    if mc > 100000000000 then
      (if p.risk_tolerance = "conservative" then score + 10 else score)
    else if mc < 10000000000 then
      (if p.risk_tolerance = "aggressive" then score + 5 else score)
    else score
  round2 score

/-- `AIAdvisor._generate_rationale`.  The Python f-string number formatting
(a pure display concern) is abstracted by `toString` of the rounded value. -/
def generateRationale (s : Stock) (p : UserProfile) : String :=
  let reasons : List String := []
  let reasons := if sectorMatch s p then
      reasons ++ ["Matches your interest in " ++ s.sector] else reasons
  let reasons := if s.dividend_yield ≠ 0 ∧ s.dividend_yield > 3/100 then
      reasons ++ ["Strong dividend yield of " ++ toString (round2 (s.dividend_yield * 100)) ++ "%"]
    else reasons
  let reasons := if s.beta.getD 1 < 9/10 ∧ p.risk_tolerance = "conservative" then
      reasons ++ ["Lower volatility matches your risk tolerance"] else reasons
  let reasons := if s.beta.getD 1 > 11/10 ∧ p.risk_tolerance = "aggressive" then
      reasons ++ ["Higher growth potential for aggressive strategy"] else reasons
  let pe := s.pe_ratio.getD 0
  let reasons := if pe ≠ 0 ∧ 10 ≤ pe ∧ pe ≤ 20 then
      reasons ++ ["Reasonable valuation"] else reasons
  let reasons := if reasons = [] then ["Solid fundamentals for diversified portfolio"] else reasons
  String.intercalate "; " reasons

/-- One entry of the recommendation list built by `generate_stock_recommendations`. -/
structure Recommendation where
  ticker : String
  name : String
  sector : String
  current_price : ℚ
  dividend_yield : ℚ
  pe_ratio : Option ℚ
  score : ℚ
  rationale : String
deriving DecidableEq

/-- The recommendation dict appended for one scored stock. -/
def mkRecommendation (p : UserProfile) (s : Stock) : Recommendation :=
  { ticker := s.ticker
    name := s.name
    sector := s.sector
    current_price := s.current_price
    dividend_yield := s.dividend_yield
    pe_ratio := s.pe_ratio
    score := scoreStock s p
    rationale := generateRationale s p }

/-- The accumulation loop of `generate_stock_recommendations`: skip `None`
records, score, keep records with `score > 0`, in input order. -/
def scoredRecs (p : UserProfile) (stock_data : List (Option Stock)) : List Recommendation :=
  stock_data.filterMap fun os =>
    os.bind fun s => if 0 < scoreStock s p then some (mkRecommendation p s) else none

/-- Descending score order: `a` may come before `b` iff `b.score ≤ a.score`. -/
def recGE (a b : Recommendation) : Prop := b.score ≤ a.score

instance : DecidableRel recGE := fun a b => inferInstanceAs (Decidable (b.score ≤ a.score))

instance : IsTotal Recommendation recGE := ⟨fun a b => le_total b.score a.score⟩

instance : IsTrans Recommendation recGE := ⟨fun _ _ _ hab hbc => le_trans hbc hab⟩

/-- `recommendations.sort(key=lambda x: x['score'], reverse=True)`: Python's
sort is stable, and with `reverse=True` it is the stable sort by descending
score, which insertion sort with `recGE` computes. -/
def sortedRecs (p : UserProfile) (stock_data : List (Option Stock)) : List Recommendation :=
  List.insertionSort recGE (scoredRecs p stock_data)

/-- `AIAdvisor.generate_stock_recommendations` (sort, then `[:num_picks]`). -/
def generateStockRecommendations (p : UserProfile) (stock_data : List (Option Stock))
    (num_picks : ℕ) : List Recommendation :=
  (sortedRecs p stock_data).take num_picks

/-! ## `financial_projections.py` — the four projections -/

/-- `FinancialProjector.inflation_rate`. -/
def inflationRate : ℚ := 3/100

/-- `self.market_return_estimates.get(profile.risk_tolerance, 0.07)`. -/
def marketReturnEstimate (rt : String) : ℚ :=
  if rt = "conservative" then 5/100
  else if rt = "moderate" then 7/100
  else if rt = "aggressive" then 9/100
  else 7/100

/-- One record of the net-worth projection. -/
structure NWEntry where
  year : ℕ
  age : ℤ
  net_worth : ℚ
  annual_income : ℚ
  annual_expenses : ℚ
  annual_savings : ℚ

/-- The `year > 0` body of the `project_net_worth` loop, acting on the
mutable state `(annual_income, annual_expenses, current_net_worth)`.
`annual_savings` is not part of the state: it always equals
`annual_income - annual_expenses` of the current state. -/
def nwStep (p : UserProfile) (s : ℚ × ℚ × ℚ) : ℚ × ℚ × ℚ :=
  let inc := s.1 * (1 + p.expected_income_growth / 100)
  let expenses := s.2.1 * (1 + inflationRate)
  (inc, expenses, s.2.2 + s.2.2 * marketReturnEstimate p.risk_tolerance + (inc - expenses))

/-- The record appended for one loop iteration of `project_net_worth`. -/
def mkNWEntry (p : UserProfile) (year : ℕ) (s : ℚ × ℚ × ℚ) : NWEntry :=
  { year := year
    age := p.age + year
    net_worth := round2 s.2.2
    annual_income := round2 s.1
    annual_expenses := round2 s.2.1
    annual_savings := round2 (s.1 - s.2.1) }

/-- The `for year in range(years + 1)` loop of `project_net_worth`:
no growth is applied at year 0. -/
def nwLoop (p : UserProfile) (s : ℚ × ℚ × ℚ) (year fuel : ℕ) : List NWEntry :=
  match fuel with
  | 0 => []
  | Nat.succ fuel =>
    let s2 := if year = 0 then s else nwStep p s
    mkNWEntry p year s2 :: nwLoop p s2 (year + 1) fuel

/-- `FinancialProjector.project_net_worth` (`years=None` modeled as an
`Option`; the `portfolio_allocation` argument is unused by the source). -/
def projectNetWorth (p : UserProfile) (years : Option ℕ) : List NWEntry :=
  let yrs := years.getD (min p.years_to_retirement 30)
  nwLoop p (p.annual_income, p.monthly_expenses * 12, p.current_savings - p.total_debt) 0 (yrs + 1)

/-- One record of the income projection. -/
structure IncEntry where
  year : ℕ
  age : ℤ
  gross_income : ℚ
  monthly_income : ℚ

/-- The loop of `project_income`. -/
def incLoop (p : UserProfile) (inc : ℚ) (year fuel : ℕ) : List IncEntry :=
  match fuel with
  | 0 => []
  | Nat.succ fuel =>
    let inc2 := if year = 0 then inc else inc * (1 + p.expected_income_growth / 100)
    { year := year, age := p.age + year,
      gross_income := round2 inc2, monthly_income := round2 (inc2 / 12) }
      :: incLoop p inc2 (year + 1) fuel

/-- `FinancialProjector.project_income`. -/
def projectIncome (p : UserProfile) (years : Option ℕ) : List IncEntry :=
  incLoop p p.annual_income 0 ((years.getD (min p.years_to_retirement 30)) + 1)

/-- One record of the dividend projection. -/
structure DivEntry where
  year : ℕ
  age : ℤ
  portfolio_value : ℚ
  annual_dividend : ℚ
  monthly_dividend : ℚ
  dividend_yield : ℚ

/-- The starting average dividend yield of `project_dividends`: the mean of
the recommendations' yields, or the flat 3% default for an empty list. -/
def avgDividendYield (recs : List Recommendation) : ℚ :=
  if recs = [] then 3/100
  else (recs.map fun r => r.dividend_yield).sum / recs.length

/-- The loop of `project_dividends`, state `(portfolio_value, yield)`.
For `year > 0` the dividend is computed from the updated portfolio value
and the not-yet-grown yield; the recorded `dividend_yield` is the grown
yield. -/
def divLoop (p : UserProfile) (contrib : ℚ) (pv yld : ℚ) (year fuel : ℕ) : List DivEntry :=
  match fuel with
  | 0 => []
  | Nat.succ fuel =>
    if year = 0 then
      let ad := pv * yld
      { year := year, age := p.age + year, portfolio_value := round2 pv,
        annual_dividend := round2 ad, monthly_dividend := round2 (ad / 12),
        dividend_yield := round2 (yld * 100) }
        :: divLoop p contrib pv yld (year + 1) fuel
    else
      let pv2 := pv * (107/100) + contrib
      let ad := pv2 * yld
      let yld2 := yld * (1 + 5/100)
      { year := year, age := p.age + year, portfolio_value := round2 pv2,
        annual_dividend := round2 ad, monthly_dividend := round2 (ad / 12),
        dividend_yield := round2 (yld2 * 100) }
        :: divLoop p contrib pv2 yld2 (year + 1) fuel

/-- `FinancialProjector.project_dividends`. -/
def projectDividends (p : UserProfile) (recs : List Recommendation)
    (years : Option ℕ) : List DivEntry :=
  let yrs := years.getD (min p.years_to_retirement 30)
  divLoop p ((p.annual_income - p.monthly_expenses * 12) * (60/100) * (40/100))
    (p.current_savings * (60/100) * (40/100)) (avgDividendYield recs) 0 (yrs + 1)

/-- One record of the portfolio-return projection. -/
structure PREntry where
  year : ℕ
  age : ℤ
  expected_value : ℚ
  best_case : ℚ
  worst_case : ℚ
  conservative_case : ℚ
  total_contributions : ℚ

/-- The loop of `project_portfolio_returns`, state `current_value`. -/
def prLoop (p : UserProfile) (ret vol contrib : ℚ) (cv : ℚ) (year fuel : ℕ) : List PREntry :=
  match fuel with
  | 0 => []
  | Nat.succ fuel =>
    if year = 0 then
      { year := year, age := p.age + year, expected_value := round2 cv,
        best_case := round2 (cv * (11/10)), worst_case := round2 (cv * (9/10)),
        conservative_case := round2 cv, total_contributions := round2 (contrib * year) }
        :: prLoop p ret vol contrib cv (year + 1) fuel
    else
      let cv2 := cv + cv * ret + contrib
      { year := year, age := p.age + year, expected_value := round2 cv2,
        best_case := round2 (cv2 * (1 + (3/2) * vol)),
        worst_case := round2 (cv2 * (1 - (3/2) * vol)),
        conservative_case := round2 (cv2 * (85/100)),
        total_contributions := round2 (contrib * year) }
        :: prLoop p ret vol contrib cv2 (year + 1) fuel

/-- `FinancialProjector.project_portfolio_returns`. -/
def projectPortfolioReturns (p : UserProfile) (alloc : Allocation)
    (years : Option ℕ) : List PREntry :=
  let yrs := years.getD (min p.years_to_retirement 30)
  let stock_pct := alloc.stocks / 100
  let bond_pct := alloc.bonds / 100
  let expected_annual_return := stock_pct * (10/100) + bond_pct * (4/100)
  let portfolio_volatility := stock_pct * (18/100) + bond_pct * (5/100)
  prLoop p expected_annual_return portfolio_volatility
    (p.annual_income - p.monthly_expenses * 12) p.current_savings 0 (yrs + 1)

/-- The dict returned by `calculate_retirement_readiness`. -/
structure RetirementReadiness where
  retirement_net_worth : ℚ
  estimated_annual_expenses : ℚ
  safe_annual_withdrawal : ℚ
  replacement_ratio : ℚ
  retirement_goal : ℚ
  on_track : Bool
  surplus_shortfall : ℚ

/-- Junk entry standing in for a Python `IndexError`: the source indexes
`net_worth_projections[-1]` / `[retirement_year]`, which is only defined
for a non-empty list; claims about this function assume non-emptiness. -/
def dNWEntry : NWEntry := ⟨0, 0, 0, 0, 0, 0⟩

/-- `FinancialProjector.calculate_retirement_readiness`. -/
def calculateRetirementReadiness (p : UserProfile)
    (net_worth_projections : List NWEntry) : RetirementReadiness :=
  let retirement_year := p.years_to_retirement
  let retirement_net_worth :=
    if net_worth_projections.length ≤ retirement_year then
      (net_worth_projections.getLastD dNWEntry).net_worth
    else
      (net_worth_projections.getD retirement_year dNWEntry).net_worth
  let retirement_expenses :=
    p.monthly_expenses * 12 * (80/100) * (1 + inflationRate) ^ p.years_to_retirement
  let safe_annual_withdrawal := retirement_net_worth * (4/100)
  let replacement_ratio :=
    if 0 < retirement_expenses then safe_annual_withdrawal / retirement_expenses * 100 else 100
  let retirement_goal := retirement_expenses * 25
  { retirement_net_worth := round2 retirement_net_worth
    estimated_annual_expenses := round2 retirement_expenses
    safe_annual_withdrawal := round2 safe_annual_withdrawal
    replacement_ratio := round1 replacement_ratio
    retirement_goal := round2 retirement_goal
    on_track := decide (retirement_goal * (8/10) ≤ retirement_net_worth)
    surplus_shortfall := round2 (retirement_net_worth - retirement_goal) }

/-! ## Helper lemmas about `determineAllocation` -/

lemma determineAllocation_stocks (p : UserProfile) :
    (determineAllocation p).stocks
      = ((max 30 (min 90 (110 - p.age + riskAdjustment p.risk_tolerance)) : ℤ) : ℚ) :=
  round1_intCast _

lemma determineAllocation_bonds (p : UserProfile) :
    (determineAllocation p).bonds
      = ((100 - max 30 (min 90 (110 - p.age + riskAdjustment p.risk_tolerance)) : ℤ) : ℚ) :=
  round1_intCast _

lemma determineAllocation_breakdown_bonds (p : UserProfile) :
    (determineAllocation p).breakdown.bonds
      = ((100 - max 30 (min 90 (110 - p.age + riskAdjustment p.risk_tolerance)) : ℤ) : ℚ) :=
  round1_intCast _

/-- A fixed test profile (modeled on the `test_basic.py` fixture) with the
age and risk tolerance of interest. -/
def sampleProfile (age : ℤ) (rt : String) : UserProfile :=
  { age := age
    location := "Test City"
    annual_income := 100000
    current_savings := 50000
    monthly_expenses := 3000
    total_debt := 20000
    career_field := "Engineering"
    years_to_retirement := 30
    expected_income_growth := 3
    marital_status := "single"
    num_dependents := 0
    major_life_goals := ["retirement", "travel"]
    risk_tolerance := rt
    investment_horizon := 30
    preferred_sectors := ["technology"]
    other_notes := "Test profile" }

/-- C2: for every age in [18,100] and every risk tolerance,
`stocks_pct = clamp((110 - age) + adjustment, 30, 90)` with adjustment −15
for conservative, 0 for moderate, +15 for aggressive and 0 otherwise;
`bonds_pct = 100 - stocks_pct`, so the two sum to 100 and
`30 ≤ stocks_pct ≤ 90`; concretely (38, moderate) ↦ 72/28,
(28, aggressive) ↦ 90/10, (52, conservative) ↦ 43/57 and
(67, conservative) ↦ 30/70. -/
theorem allocation_clamp_and_scenarios :
    (∀ p : UserProfile, 18 ≤ p.age → p.age ≤ 100 →
      (determineAllocation p).stocks
          = ((max 30 (min 90 (110 - p.age + riskAdjustment p.risk_tolerance)) : ℤ) : ℚ)
        ∧ (determineAllocation p).stocks + (determineAllocation p).bonds = 100
        ∧ 30 ≤ (determineAllocation p).stocks
        ∧ (determineAllocation p).stocks ≤ 90)
    ∧ (determineAllocation (sampleProfile 38 "moderate")).stocks = 72
    ∧ (determineAllocation (sampleProfile 38 "moderate")).bonds = 28
    ∧ (determineAllocation (sampleProfile 28 "aggressive")).stocks = 90
    ∧ (determineAllocation (sampleProfile 28 "aggressive")).bonds = 10
    ∧ (determineAllocation (sampleProfile 52 "conservative")).stocks = 43
    ∧ (determineAllocation (sampleProfile 52 "conservative")).bonds = 57
    ∧ (determineAllocation (sampleProfile 67 "conservative")).stocks = 30
    ∧ (determineAllocation (sampleProfile 67 "conservative")).bonds = 70 := by
  constructor
  · intro p _ _
    refine ⟨determineAllocation_stocks p, ?_, ?_, ?_⟩
    · rw [determineAllocation_stocks, determineAllocation_bonds]
      push_cast
      ring
    · rw [determineAllocation_stocks]
      have : (30 : ℤ) ≤ max 30 (min 90 (110 - p.age + riskAdjustment p.risk_tolerance)) :=
        le_max_left _ _
      exact_mod_cast this
    · rw [determineAllocation_stocks]
      have : max 30 (min 90 (110 - p.age + riskAdjustment p.risk_tolerance)) ≤ (90 : ℤ) :=
        max_le (by norm_num) (min_le_left _ _)
      exact_mod_cast this
  · refine ⟨?_, ?_, ?_, ?_, ?_, ?_, ?_, ?_⟩ <;>
      simp only [determineAllocation_stocks, determineAllocation_bonds] <;>
        norm_cast

/-- Witness for C2 at the concrete profile (age 38, moderate). -/
theorem allocation_clamp_witness :
    18 ≤ (sampleProfile 38 "moderate").age
    ∧ (sampleProfile 38 "moderate").age ≤ 100
    ∧ ((determineAllocation (sampleProfile 38 "moderate")).stocks
          = ((max 30 (min 90 (110 - (sampleProfile 38 "moderate").age
              + riskAdjustment (sampleProfile 38 "moderate").risk_tolerance)) : ℤ) : ℚ)
        ∧ (determineAllocation (sampleProfile 38 "moderate")).stocks
            + (determineAllocation (sampleProfile 38 "moderate")).bonds = 100
        ∧ 30 ≤ (determineAllocation (sampleProfile 38 "moderate")).stocks
        ∧ (determineAllocation (sampleProfile 38 "moderate")).stocks ≤ 90) :=
  ⟨by norm_num [sampleProfile], by norm_num [sampleProfile],
    allocation_clamp_and_scenarios.1 (sampleProfile 38 "moderate")
      (by norm_num [sampleProfile]) (by norm_num [sampleProfile])⟩

/-- C8: the stock sub-allocation is 60/25/10/5% of `stocks_pct`, the four
rounded components sum to `stocks_pct` within the 1-decimal rounding
tolerance, and `breakdown.bonds` equals `bonds_pct`. -/
theorem breakdown_invariant_spec (p : UserProfile) :
    (determineAllocation p).breakdown.large_cap
        = round1 ((60/100) * (determineAllocation p).stocks)
    ∧ (determineAllocation p).breakdown.mid_cap
        = round1 ((25/100) * (determineAllocation p).stocks)
    ∧ (determineAllocation p).breakdown.small_cap
        = round1 ((10/100) * (determineAllocation p).stocks)
    ∧ (determineAllocation p).breakdown.international
        = round1 ((5/100) * (determineAllocation p).stocks)
    ∧ |(determineAllocation p).breakdown.large_cap
        + (determineAllocation p).breakdown.mid_cap
        + (determineAllocation p).breakdown.small_cap
        + (determineAllocation p).breakdown.international
        - (determineAllocation p).stocks| ≤ 1/5
    ∧ (determineAllocation p).breakdown.bonds = (determineAllocation p).bonds := by
  have hst := determineAllocation_stocks p
  set sp : ℚ := ((max 30 (min 90 (110 - p.age + riskAdjustment p.risk_tolerance)) : ℤ) : ℚ)
    with hsp
  have hl : (determineAllocation p).breakdown.large_cap = round1 (sp * (60/100)) := rfl
  have hm : (determineAllocation p).breakdown.mid_cap = round1 (sp * (25/100)) := rfl
  have hs : (determineAllocation p).breakdown.small_cap = round1 (sp * (10/100)) := rfl
  have hi : (determineAllocation p).breakdown.international = round1 (sp * (5/100)) := rfl
  refine ⟨by rw [hl, hst, mul_comm], by rw [hm, hst, mul_comm],
          by rw [hs, hst, mul_comm], by rw [hi, hst, mul_comm], ?_, ?_⟩
  · have b1 := abs_le.mp (abs_round1_sub (sp * (60/100)))
    have b2 := abs_le.mp (abs_round1_sub (sp * (25/100)))
    have b3 := abs_le.mp (abs_round1_sub (sp * (10/100)))
    have b4 := abs_le.mp (abs_round1_sub (sp * (5/100)))
    rw [hl, hm, hs, hi, hst]
    rw [abs_le]
    constructor <;> [linarith [b1.1, b2.1, b3.1, b4.1]; linarith [b1.2, b2.2, b3.2, b4.2]]
  · rw [determineAllocation_breakdown_bonds, determineAllocation_bonds]

/-! ## C4/C9 — the score as a sum of independent bonuses, and its floor -/

/-- Sector-preference bonus: +15 on a case-insensitive preferred-sector match. -/
def sectorBonus (s : Stock) (p : UserProfile) : ℚ :=
  if sectorMatch s p then 15 else 0

/-- Risk-tolerance-dependent beta/dividend bonus. -/
def riskBonus (s : Stock) (p : UserProfile) : ℚ :=
  if p.risk_tolerance = "conservative" then
    (if s.beta.getD 1 < 8/10 then 10 else 0)
    + (if s.beta.getD 1 > 12/10 then -10 else 0)
    + (if s.dividend_yield > 2/100 then 15 else 0)
  else if p.risk_tolerance = "aggressive" then
    (if s.beta.getD 1 > 12/10 then 10 else 0) + 5
  else
    (if 8/10 ≤ s.beta.getD 1 ∧ s.beta.getD 1 ≤ 12/10 then 10 else 0)
    + (if s.dividend_yield > 15/1000 then 10 else 0)

/-- P/E valuation bonus (no effect when `pe_ratio` is 0 or absent). -/
def peBonus (s : Stock) : ℚ :=
  (if 10 ≤ s.pe_ratio.getD 0 ∧ s.pe_ratio.getD 0 ≤ 25 then 10 else 0)
  + (if s.pe_ratio.getD 0 > 40 then -5 else 0)

/-- Market-cap stability bonus. -/
def capBonus (s : Stock) (p : UserProfile) : ℚ :=
  (if s.market_cap.getD 0 > 100000000000 ∧ p.risk_tolerance = "conservative" then 10 else 0)
  + (if s.market_cap.getD 0 < 10000000000 ∧ p.risk_tolerance = "aggressive" then 5 else 0)

/-- The score of a stock as the specification describes it: 50 plus a sum
of independent sector / risk-tolerance / P-E / market-cap bonuses. -/
def specScore (s : Stock) (p : UserProfile) : ℚ :=
  50 + sectorBonus s p + riskBonus s p + peBonus s + capBonus s p

lemma truthy_and_gt {c x : ℚ} (hc : 0 < c) : (x ≠ 0 ∧ x > c) ↔ x > c := by
  constructor
  · exact And.right
  · intro h
    exact ⟨ne_of_gt (lt_trans hc h), h⟩

lemma truthy_and_ge_le {x : ℚ} : (x ≠ 0 ∧ 10 ≤ x ∧ x ≤ 25) ↔ (10 ≤ x ∧ x ≤ 25) := by
  constructor
  · exact And.right
  · intro h
    exact ⟨by linarith [h.1], h⟩

lemma ite_add_shift (P : Prop) [Decidable P] (x k : ℚ) :
    (if P then x + k else x) = x + (if P then k else 0) := by
  split_ifs <;> ring

lemma risk_section_eq (x beta dy : ℚ) (c a : Prop) [Decidable c] [Decidable a] :
    (if c then
       (if dy > 2/100 then
          (if beta < 8/10 then x + 10 else if beta > 12/10 then x - 10 else x) + 15
        else (if beta < 8/10 then x + 10 else if beta > 12/10 then x - 10 else x))
     else if a then (if beta > 12/10 then x + 10 else x) + 5
     else (if dy > 15/1000 then (if 8/10 ≤ beta ∧ beta ≤ 12/10 then x + 10 else x) + 10
           else (if 8/10 ≤ beta ∧ beta ≤ 12/10 then x + 10 else x)))
    = x + (if c then
             (if beta < 8/10 then 10 else 0) + (if beta > 12/10 then -10 else 0)
             + (if dy > 2/100 then 15 else 0)
           else if a then (if beta > 12/10 then 10 else 0) + 5
           else (if 8/10 ≤ beta ∧ beta ≤ 12/10 then 10 else 0)
             + (if dy > 15/1000 then 10 else 0)) := by
  split_ifs <;> (first | ring1 | linarith)

lemma pe_section_eq (x pe : ℚ) :
    (if 10 ≤ pe ∧ pe ≤ 25 then x + 10 else if pe > 40 then x - 5 else x)
      = x + ((if 10 ≤ pe ∧ pe ≤ 25 then 10 else 0) + (if pe > 40 then -5 else 0)) := by
  by_cases h1 : 10 ≤ pe ∧ pe ≤ 25 <;> by_cases h2 : pe > 40 <;>
    simp [h1, h2] <;> (first | ring1 | linarith [h1.2])

lemma mc_section_eq (x mc : ℚ) (c a : Prop) [Decidable c] [Decidable a] :
    (if mc > 100000000000 then (if c then x + 10 else x)
     else if mc < 10000000000 then (if a then x + 5 else x) else x)
      = x + ((if mc > 100000000000 ∧ c then 10 else 0)
             + (if mc < 10000000000 ∧ a then 5 else 0)) := by
  by_cases h1 : mc > 100000000000 <;> by_cases h2 : c <;>
    by_cases h3 : mc < 10000000000 <;> by_cases h4 : a <;>
      simp [h1, h2, h3, h4] <;> (first | ring1 | linarith)

/-- `_score_stock` computes exactly the specification's sum of bonuses. -/
lemma scoreStock_eq_round2_specScore (s : Stock) (p : UserProfile) :
    scoreStock s p = round2 (specScore s p) := by
  unfold scoreStock specScore sectorBonus riskBonus peBonus capBonus
  simp only [truthy_and_gt (show (0:ℚ) < 2/100 by norm_num),
             truthy_and_gt (show (0:ℚ) < 15/1000 by norm_num),
             truthy_and_gt (show (0:ℚ) < 40 by norm_num),
             truthy_and_ge_le]
  rw [risk_section_eq, pe_section_eq, mc_section_eq, ite_add_shift]

lemma sectorBonus_nonneg (s : Stock) (p : UserProfile) : 0 ≤ sectorBonus s p := by
  unfold sectorBonus
  split_ifs <;> norm_num

lemma riskBonus_ge (s : Stock) (p : UserProfile) : -10 ≤ riskBonus s p := by
  unfold riskBonus
  split_ifs <;> norm_num

lemma peBonus_ge (s : Stock) : -5 ≤ peBonus s := by
  unfold peBonus
  split_ifs <;> norm_num

lemma capBonus_nonneg (s : Stock) (p : UserProfile) : 0 ≤ capBonus s p := by
  unfold capBonus
  split_ifs <;> norm_num

/-- No branch of the score sum is below 35: the worst case is conservative
with beta above 1.2 and P/E above 40, scoring 50 − 10 − 5. -/
lemma specScore_ge_35 (s : Stock) (p : UserProfile) : 35 ≤ specScore s p := by
  have h1 := sectorBonus_nonneg s p
  have h2 := riskBonus_ge s p
  have h3 := peBonus_ge s
  have h4 := capBonus_nonneg s p
  unfold specScore
  linarith

lemma le_rndEven_of_le {n : ℤ} {q : ℚ} (h : (n : ℚ) ≤ q) : n ≤ rndEven q := by
  have hf : n ≤ ⌊q⌋ := Int.le_floor.mpr h
  unfold rndEven
  split_ifs <;> omega

lemma intCast_le_round2 {n : ℤ} {q : ℚ} (h : (n : ℚ) ≤ q) : (n : ℚ) ≤ round2 q := by
  have h1 : ((n * 100 : ℤ) : ℚ) ≤ q * (10 : ℚ) ^ 2 := by push_cast; linarith
  have h2 : (n * 100 : ℤ) ≤ rndEven (q * (10 : ℚ) ^ 2) := le_rndEven_of_le h1
  unfold round2 roundTo
  rw [le_div_iff₀ (by norm_num : (0:ℚ) < (10:ℚ) ^ 2)]
  calc (n : ℚ) * (10:ℚ) ^ 2 = ((n * 100 : ℤ) : ℚ) := by push_cast; ring
    _ ≤ (rndEven (q * (10:ℚ) ^ 2) : ℚ) := by exact_mod_cast h2

/-- C4: for every stock record and profile, `_score_stock` returns exactly
50 plus the sector bonus (+15 on a case-insensitive preferred-sector
match), the risk-tolerance bonus (conservative: +10 for beta < 0.8, −10
for beta > 1.2, +15 for dividend yield > 0.02; aggressive: +10 for
beta > 1.2 plus an unconditional +5; otherwise: +10 for 0.8 ≤ beta ≤ 1.2,
+10 for dividend yield > 0.015), the P/E bonus (+10 for 10 ≤ pe ≤ 25, −5
for pe > 40, nothing when pe is 0/absent) and the market-cap bonus (+10
for cap > 100e9 if conservative, +5 for cap < 10e9 if aggressive), rounded
to 2 decimals and never clamped. -/
theorem score_value_spec (s : Stock) (p : UserProfile) :
    scoreStock s p = round2 (specScore s p) :=
  scoreStock_eq_round2_specScore s p

/-- C9 (implicit): every score is at least 35 (worst case 50 − 10 − 5),
hence strictly positive, so the positive-score filter of
`generate_stock_recommendations` never drops a non-`None` candidate and the
pre-truncation list has one entry per non-`None` input record. -/
theorem score_floor_and_lossless_filter (s : Stock) (p : UserProfile)
    (stock_data : List (Option Stock)) :
    (35 : ℚ) ≤ scoreStock s p
    ∧ (∀ s' : Stock, some s' ∈ stock_data →
        mkRecommendation p s' ∈ scoredRecs p stock_data)
    ∧ (scoredRecs p stock_data).length = stock_data.reduceOption.length := by
  have hfloor : ∀ s0 : Stock, (35 : ℚ) ≤ scoreStock s0 p := by
    intro s0
    rw [scoreStock_eq_round2_specScore]
    have h := specScore_ge_35 s0 p
    have h35 : ((35 : ℤ) : ℚ) ≤ specScore s0 p := by exact_mod_cast h
    have := intCast_le_round2 h35
    exact_mod_cast this
  have hpos : ∀ s0 : Stock, 0 < scoreStock s0 p := fun s0 =>
    lt_of_lt_of_le (by norm_num) (hfloor s0)
  refine ⟨hfloor s, ?_, ?_⟩
  · intro s' hmem
    refine List.mem_filterMap.mpr ⟨some s', hmem, ?_⟩
    simp [hpos s']
  · induction stock_data with
    | nil => rfl
    | cons os tl ih =>
      cases os with
      | none => simpa [scoredRecs, List.filterMap_cons, List.reduceOption] using ih
      | some s0 =>
        simpa [scoredRecs, List.filterMap_cons, List.reduceOption, hpos s0] using ih

/-! ## C3 — shape of the recommendation list -/

lemma filter_orderedInsert_of_eq (a : Recommendation) (l : List Recommendation) (c : ℚ)
    (ha : a.score = c) :
    (List.orderedInsert recGE a l).filter (fun r => decide (r.score = c))
      = a :: l.filter (fun r => decide (r.score = c)) := by
  induction l with
  | nil => simp [List.orderedInsert, ha]
  | cons b tl ih =>
    by_cases h : recGE a b
    · simp [List.orderedInsert, h, ha]
    · have hlt : c < b.score := by
        unfold recGE at h
        push_neg at h
        rw [ha] at h
        exact h
      have hb : b.score ≠ c := ne_of_gt hlt
      simp [List.orderedInsert, h, hb, ih]

lemma filter_orderedInsert_of_ne (a : Recommendation) (l : List Recommendation) (c : ℚ)
    (ha : a.score ≠ c) :
    (List.orderedInsert recGE a l).filter (fun r => decide (r.score = c))
      = l.filter (fun r => decide (r.score = c)) := by
  induction l with
  | nil => simp [List.orderedInsert, ha]
  | cons b tl ih =>
    by_cases h : recGE a b
    · simp [List.orderedInsert, h, ha]
    · by_cases hb : b.score = c <;> simp [List.orderedInsert, h, hb, ih]

/-- Stability of the descending sort: for every score value, the sorted
list restricted to that score is the unsorted list restricted to that
score, in the same order. -/
lemma filter_insertionSort_score (l : List Recommendation) (c : ℚ) :
    (List.insertionSort recGE l).filter (fun r => decide (r.score = c))
      = l.filter (fun r => decide (r.score = c)) := by
  induction l with
  | nil => rfl
  | cons a tl ih =>
    show (List.orderedInsert recGE a (List.insertionSort recGE tl)).filter _ = _
    by_cases ha : a.score = c
    · rw [filter_orderedInsert_of_eq a _ c ha, ih]
      simp [ha]
    · rw [filter_orderedInsert_of_ne a _ c ha, ih]
      simp [ha]

/-- C3: the recommendation list is sorted non-increasing by score, has at
most `num_picks` entries, contains no entry derived from a `None` record,
consists (before truncation) of exactly the candidates with strictly
positive score, preserves input order among equal scores, and is empty for
an empty candidate list. -/
theorem recommendation_list_shape (p : UserProfile) (stock_data : List (Option Stock)) (n : ℕ) :
    List.Sorted recGE (generateStockRecommendations p stock_data n)
    ∧ (generateStockRecommendations p stock_data n).length ≤ n
    ∧ (∀ r ∈ generateStockRecommendations p stock_data n,
        ∃ s : Stock, some s ∈ stock_data ∧ 0 < scoreStock s p ∧ r = mkRecommendation p s)
    ∧ (∀ r : Recommendation, r ∈ sortedRecs p stock_data ↔
        ∃ s : Stock, some s ∈ stock_data ∧ 0 < scoreStock s p ∧ r = mkRecommendation p s)
    ∧ (∀ c : ℚ, (sortedRecs p stock_data).filter (fun r => decide (r.score = c))
        = (scoredRecs p stock_data).filter (fun r => decide (r.score = c)))
    ∧ generateStockRecommendations p [] n = [] := by
  have hchar : ∀ r : Recommendation, r ∈ scoredRecs p stock_data ↔
      ∃ s : Stock, some s ∈ stock_data ∧ 0 < scoreStock s p ∧ r = mkRecommendation p s := by
    intro r
    constructor
    · intro hmem
      obtain ⟨os, hos, heq⟩ := List.mem_filterMap.mp hmem
      cases os with
      | none => simp at heq
      | some s =>
        simp only [Option.some_bind] at heq
        by_cases hsc : 0 < scoreStock s p
        · rw [if_pos hsc] at heq
          exact ⟨s, hos, hsc, (Option.some_injective _ heq).symm⟩
        · rw [if_neg hsc] at heq
          exact absurd heq (by simp)
    · rintro ⟨s, hos, hsc, rfl⟩
      exact List.mem_filterMap.mpr ⟨some s, hos, by simp [hsc]⟩
  refine ⟨?_, ?_, ?_, ?_, fun c => filter_insertionSort_score _ c,
    by simp [generateStockRecommendations, sortedRecs, scoredRecs]⟩
  · exact (List.sorted_insertionSort recGE _).sublist (List.take_sublist _ _)
  · exact List.length_take_le _ _
  · intro r hr
    have h1 : r ∈ sortedRecs p stock_data := List.take_subset _ _ hr
    have h2 : r ∈ scoredRecs p stock_data := (List.mem_insertionSort recGE).mp h1
    exact (hchar r).mp h2
  · intro r
    rw [show (r ∈ sortedRecs p stock_data) = (r ∈ List.insertionSort recGE (scoredRecs p stock_data)) from rfl,
        List.mem_insertionSort]
    exact hchar r

/-! ## C6 — the years-to-debt-free sentinel -/

/-- C6: with positive income and expenses, `years_to_debt_free` is the
non-numeric `'N/A'` sentinel (modeled by `none`) iff monthly income does
not exceed monthly expenses, and otherwise the rounded quotient
`total_debt / ((monthly_income - monthly_expenses) * 12)`; as an
`Option ℚ` the field can never hold a numeric Infinity or NaN. -/
theorem years_to_debt_free_sentinel (p : UserProfile)
    (h1 : 0 < p.annual_income) (h2 : 0 < p.monthly_expenses) :
    ((analyzeProfile p).financial_health.years_to_debt_free = none
      ↔ p.annual_income / 12 ≤ p.monthly_expenses)
    ∧ (p.monthly_expenses < p.annual_income / 12 →
        (analyzeProfile p).financial_health.years_to_debt_free
          = some (round2 (p.total_debt / ((p.annual_income / 12 - p.monthly_expenses) * 12)))) := by
  constructor
  · by_cases h : p.monthly_expenses < p.annual_income / 12
    · simp [analyzeProfile, h]
      try linarith
    · simp [analyzeProfile, h]
      try linarith [not_lt.mp h]
  · intro h
    simp [analyzeProfile, h]

/-- Witness for C6 at the `test_basic.py` fixture profile. -/
theorem years_to_debt_free_witness :
    0 < (sampleProfile 35 "moderate").annual_income
    ∧ 0 < (sampleProfile 35 "moderate").monthly_expenses
    ∧ (((analyzeProfile (sampleProfile 35 "moderate")).financial_health.years_to_debt_free = none
        ↔ (sampleProfile 35 "moderate").annual_income / 12
            ≤ (sampleProfile 35 "moderate").monthly_expenses)
      ∧ ((sampleProfile 35 "moderate").monthly_expenses
            < (sampleProfile 35 "moderate").annual_income / 12 →
          (analyzeProfile (sampleProfile 35 "moderate")).financial_health.years_to_debt_free
            = some (round2 ((sampleProfile 35 "moderate").total_debt
                / (((sampleProfile 35 "moderate").annual_income / 12
                    - (sampleProfile 35 "moderate").monthly_expenses) * 12))))) :=
  ⟨by norm_num [sampleProfile], by norm_num [sampleProfile],
    years_to_debt_free_sentinel (sampleProfile 35 "moderate")
      (by norm_num [sampleProfile]) (by norm_num [sampleProfile])⟩

/-! ## C5 — retirement readiness -/

lemma oneEntry_ne_nil : ([dNWEntry] : List NWEntry) ≠ [] := by simp

/-- C5: for a non-empty net-worth projection, `retirement_net_worth` is
the projection value at index `years_to_retirement` (clamped to the last
entry for a shorter list), the goal is
`monthly_expenses*12*0.80*(1.03)^years_to_retirement*25`, and `on_track`
holds iff the selected net worth is at least 80% of that goal. -/
theorem retirement_readiness_spec (p : UserProfile) (proj : List NWEntry) (hne : proj ≠ []) :
    ((calculateRetirementReadiness p proj).on_track = true ↔
      (8/10) * (p.monthly_expenses * 12 * (80/100)
          * (1 + 3/100) ^ p.years_to_retirement * 25)
        ≤ (if p.years_to_retirement < proj.length
           then (proj.getD p.years_to_retirement dNWEntry).net_worth
           else (proj.getLast hne).net_worth))
    ∧ (calculateRetirementReadiness p proj).retirement_net_worth
        = round2 (if p.years_to_retirement < proj.length
                  then (proj.getD p.years_to_retirement dNWEntry).net_worth
                  else (proj.getLast hne).net_worth)
    ∧ (calculateRetirementReadiness p proj).retirement_goal
        = round2 (p.monthly_expenses * 12 * (80/100)
            * (1 + 3/100) ^ p.years_to_retirement * 25) := by
  have hsel : (if proj.length ≤ p.years_to_retirement
      then (proj.getLastD dNWEntry).net_worth
      else (proj.getD p.years_to_retirement dNWEntry).net_worth)
      = (if p.years_to_retirement < proj.length
         then (proj.getD p.years_to_retirement dNWEntry).net_worth
         else (proj.getLast hne).net_worth) := by
    rcases lt_or_le p.years_to_retirement proj.length with h | h
    · rw [if_neg (not_le.mpr h), if_pos h]
    · rw [if_pos h, if_neg (not_lt.mpr h), List.getLastD_eq_getLast?,
          List.getLast?_eq_getLast _ hne, Option.getD_some]
  refine ⟨?_, ?_, ?_⟩
  · show decide _ = true ↔ _
    rw [decide_eq_true_eq]
    unfold inflationRate
    rw [hsel]
    constructor <;> intro h <;> linarith
  · show round2 _ = _
    rw [hsel]
  · show round2 _ = _
    unfold inflationRate
    rfl

/-- Witness for C5: a singleton projection list. -/
theorem retirement_readiness_witness :
    (((calculateRetirementReadiness (sampleProfile 35 "moderate") [dNWEntry]).on_track = true ↔
      (8/10) * ((sampleProfile 35 "moderate").monthly_expenses * 12 * (80/100)
          * (1 + 3/100) ^ (sampleProfile 35 "moderate").years_to_retirement * 25)
        ≤ (if (sampleProfile 35 "moderate").years_to_retirement
              < ([dNWEntry] : List NWEntry).length
           then (([dNWEntry] : List NWEntry).getD
                  (sampleProfile 35 "moderate").years_to_retirement dNWEntry).net_worth
           else (([dNWEntry] : List NWEntry).getLast oneEntry_ne_nil).net_worth))
    ∧ (calculateRetirementReadiness (sampleProfile 35 "moderate") [dNWEntry]).retirement_net_worth
        = round2 (if (sampleProfile 35 "moderate").years_to_retirement
              < ([dNWEntry] : List NWEntry).length
           then (([dNWEntry] : List NWEntry).getD
                  (sampleProfile 35 "moderate").years_to_retirement dNWEntry).net_worth
           else (([dNWEntry] : List NWEntry).getLast oneEntry_ne_nil).net_worth)
    ∧ (calculateRetirementReadiness (sampleProfile 35 "moderate") [dNWEntry]).retirement_goal
        = round2 ((sampleProfile 35 "moderate").monthly_expenses * 12 * (80/100)
            * (1 + 3/100) ^ (sampleProfile 35 "moderate").years_to_retirement * 25)) :=
  retirement_readiness_spec (sampleProfile 35 "moderate") [dNWEntry] oneEntry_ne_nil

/-! ## C7 — year-0 snapshots -/

lemma round2_zero : round2 0 = 0 := by
  have h := round2_intCast 0
  simpa using h

/-- Junk entry for out-of-range indexing into a portfolio-return projection. -/
def dPREntry : PREntry := ⟨0, 0, 0, 0, 0, 0, 0⟩

/-- C7 counterexample: at the `test_basic.py` fixture profile (current
savings 50000) the year-0 `best_case` of the portfolio-return projection
is 55000 = 1.1 × savings, not the unprojected current value. -/
theorem year0_snapshot_cex :
    ((projectPortfolioReturns (sampleProfile 35 "moderate")
        (determineAllocation (sampleProfile 35 "moderate")) (some 3)).getD 0 dPREntry).best_case
      = 55000
    ∧ (sampleProfile 35 "moderate").current_savings = 50000
    ∧ ((projectPortfolioReturns (sampleProfile 35 "moderate")
        (determineAllocation (sampleProfile 35 "moderate")) (some 3)).getD 0 dPREntry).best_case
      ≠ (sampleProfile 35 "moderate").current_savings := by
  have hb : ((projectPortfolioReturns (sampleProfile 35 "moderate")
      (determineAllocation (sampleProfile 35 "moderate")) (some 3)).getD 0 dPREntry).best_case
      = 55000 := by
    norm_num [projectPortfolioReturns, prLoop, sampleProfile, round2, roundTo, rndEven]
  refine ⟨hb, by norm_num [sampleProfile], ?_⟩
  rw [hb]
  norm_num [sampleProfile]

/-- C7 (amended): the year-0 entries of the net-worth, income and dividend
projections hold the profile's current, unprojected values, and so do the
`expected_value`, `conservative_case` and `total_contributions` fields of
the portfolio-return projection; its year-0 `best_case` and `worst_case`,
however, are current savings × 1.1 and × 0.9. -/
theorem year0_snapshot_amended (p : UserProfile) (alloc : Allocation)
    (recs : List Recommendation) (years : Option ℕ) :
    (projectNetWorth p years).head? = some
      { year := 0, age := p.age, net_worth := round2 (p.current_savings - p.total_debt),
        annual_income := round2 p.annual_income,
        annual_expenses := round2 (p.monthly_expenses * 12),
        annual_savings := round2 (p.annual_income - p.monthly_expenses * 12) }
    ∧ (projectIncome p years).head? = some
      { year := 0, age := p.age, gross_income := round2 p.annual_income,
        monthly_income := round2 (p.annual_income / 12) }
    ∧ (projectDividends p recs years).head? = some
      { year := 0, age := p.age,
        portfolio_value := round2 (p.current_savings * (60/100) * (40/100)),
        annual_dividend :=
          round2 (p.current_savings * (60/100) * (40/100) * avgDividendYield recs),
        monthly_dividend :=
          round2 (p.current_savings * (60/100) * (40/100) * avgDividendYield recs / 12),
        dividend_yield := round2 (avgDividendYield recs * 100) }
    ∧ (projectPortfolioReturns p alloc years).head? = some
      { year := 0, age := p.age, expected_value := round2 p.current_savings,
        best_case := round2 (p.current_savings * (11/10)),
        worst_case := round2 (p.current_savings * (9/10)),
        conservative_case := round2 p.current_savings,
        total_contributions := 0 } := by
  refine ⟨?_, ?_, ?_, ?_⟩
  · simp [projectNetWorth, nwLoop, mkNWEntry]
  · simp [projectIncome, incLoop]
  · simp [projectDividends, divLoop]
  · simp [projectPortfolioReturns, prLoop, round2_zero]

/-! ## C1 — the net-worth recurrence -/

/-- The expected-return table as the claim states it. -/
def specNWReturn (rt : String) : ℚ :=
  if rt = "conservative" then 5/100
  else if rt = "moderate" then 7/100
  else if rt = "aggressive" then 9/100
  else 7/100

/-- The net-worth recurrence exactly as the specification states it:
year-0 state is `current_savings - total_debt`; each later year multiplies
income by `(1 + growth/100)` and expenses by 1.03, takes
`savings = income - expenses`, and updates
`state := state + state*expected_return + savings`. -/
def specNWState (p : UserProfile) : ℕ → ℚ × ℚ × ℚ
  | 0 => (p.annual_income, p.monthly_expenses * 12, p.current_savings - p.total_debt)
  | i + 1 =>
      let s := specNWState p i
      let income := s.1 * (1 + p.expected_income_growth / 100)
      let expenses := s.2.1 * (1 + 3/100)
      let savings := income - expenses
      (income, expenses, s.2.2 + s.2.2 * specNWReturn p.risk_tolerance + savings)

lemma specNWState_eq_iterate (p : UserProfile) (i : ℕ) :
    specNWState p i
      = (nwStep p)^[i]
          (p.annual_income, p.monthly_expenses * 12, p.current_savings - p.total_debt) := by
  induction i with
  | zero => rfl
  | succ i ih =>
    rw [Function.iterate_succ_apply', ← ih]
    rfl

lemma nwLoop_pos_eq (p : UserProfile) :
    ∀ (fuel : ℕ) (j : ℕ) (s : ℚ × ℚ × ℚ), 1 ≤ j →
      nwLoop p s j fuel
        = (List.range fuel).map (fun i => mkNWEntry p (j + i) ((nwStep p)^[i + 1] s)) := by
  intro fuel
  induction fuel with
  | zero => intro j s hj; simp [nwLoop]
  | succ fuel ih =>
    intro j s hj
    have hj0 : ¬ j = 0 := by omega
    simp only [nwLoop, hj0, ite_false]
    rw [ih (j + 1) (nwStep p s) (by omega), List.range_succ_eq_map]
    simp only [List.map_cons, List.map_map]
    congr 1
    refine List.map_congr_left ?_
    intro a ha
    have hidx : j + 1 + a = j + (a + 1) := by omega
    rw [hidx]
    simp [Function.iterate_succ_apply]

lemma projectNetWorth_some_eq (p : UserProfile) (h : ℕ) :
    projectNetWorth p (some h)
      = mkNWEntry p 0 (specNWState p 0)
        :: (List.range h).map (fun i => mkNWEntry p (i + 1) (specNWState p (i + 1))) := by
  unfold projectNetWorth
  simp only [Option.getD_some]
  show nwLoop p (p.annual_income, p.monthly_expenses * 12,
      p.current_savings - p.total_debt) 0 (h + 1) = _
  simp only [nwLoop, ite_true]
  rw [nwLoop_pos_eq p h 1 _ le_rfl]
  congr 1
  refine List.map_congr_left fun i _ => ?_
  rw [specNWState_eq_iterate, show 1 + i = i + 1 from by omega]

/-- C1: the net-worth projection runs years 0..horizon with
horizon = min(years_to_retirement, 30) unless a year count is passed; its
year-0 state is `current_savings - total_debt`, and each later entry
follows the income-growth/inflation/expected-return recurrence of the
specification (entries are display-rounded to 2 decimals). -/
theorem net_worth_projection_spec (p : UserProfile) (h : ℕ) :
    projectNetWorth p none = projectNetWorth p (some (min p.years_to_retirement 30))
    ∧ (projectNetWorth p (some h)).length = h + 1
    ∧ (specNWState p 0).2.2 = p.current_savings - p.total_debt
    ∧ (∀ i : ℕ, i ≤ h →
        (projectNetWorth p (some h))[i]? = some
          { year := i, age := p.age + (i : ℤ),
            net_worth := round2 (specNWState p i).2.2,
            annual_income := round2 (specNWState p i).1,
            annual_expenses := round2 (specNWState p i).2.1,
            annual_savings := round2 ((specNWState p i).1 - (specNWState p i).2.1) }) := by
  refine ⟨rfl, ?_, rfl, ?_⟩
  · rw [projectNetWorth_some_eq]
    simp
  · intro i hi
    rw [projectNetWorth_some_eq]
    cases i with
    | zero => simp [mkNWEntry]
    | succ k =>
      have hk : k < h := by omega
      simp [List.getElem?_map, List.getElem?_range, hk, mkNWEntry]

/-- Witness for C1 at the fixture profile, horizon 2, year 1. -/
theorem net_worth_projection_witness :
    1 ≤ 2 ∧ ((projectNetWorth (sampleProfile 35 "moderate") (some 2))[1]? = some
      { year := 1, age := (sampleProfile 35 "moderate").age + ((1 : ℕ) : ℤ),
        net_worth := round2 (specNWState (sampleProfile 35 "moderate") 1).2.2,
        annual_income := round2 (specNWState (sampleProfile 35 "moderate") 1).1,
        annual_expenses := round2 (specNWState (sampleProfile 35 "moderate") 1).2.1,
        annual_savings := round2 ((specNWState (sampleProfile 35 "moderate") 1).1
          - (specNWState (sampleProfile 35 "moderate") 1).2.1) }) :=
  ⟨by norm_num,
    (net_worth_projection_spec (sampleProfile 35 "moderate") 2).2.2.2 1 (by norm_num)⟩

/-! ## C10 — the dividend-yield reporting skew -/

/-- The constant yearly contribution of `project_dividends`. -/
def divContrib (p : UserProfile) : ℚ :=
  (p.annual_income - p.monthly_expenses * 12) * (60/100) * (40/100)

/-- The initial dividend-stock investment of `project_dividends`. -/
def divInit (p : UserProfile) : ℚ := p.current_savings * (60/100) * (40/100)

/-- One year of the dividend loop on the state `(portfolio_value, yield)`. -/
def divStepG (contrib : ℚ) (s : ℚ × ℚ) : ℚ × ℚ :=
  (s.1 * (107/100) + contrib, s.2 * (1 + 5/100))

/-- The (unrounded) portfolio value at each projected year. -/
def divPV (p : UserProfile) : ℕ → ℚ
  | 0 => divInit p
  | i + 1 => divPV p i * (107/100) + divContrib p

/-- The (unrounded) average yield after `i` growth steps. -/
def divYieldSeq (recs : List Recommendation) : ℕ → ℚ
  | 0 => avgDividendYield recs
  | i + 1 => divYieldSeq recs i * (1 + 5/100)

lemma divStepG_iterate (p : UserProfile) (recs : List Recommendation) (i : ℕ) :
    (divStepG (divContrib p))^[i] (divInit p, avgDividendYield recs)
      = (divPV p i, divYieldSeq recs i) := by
  induction i with
  | zero => rfl
  | succ i ih =>
    rw [Function.iterate_succ_apply', ih]
    rfl

/-- The record appended by a `year > 0` iteration of the dividend loop
entered with state `s`: the dividend uses the updated portfolio value and
the incoming (not yet grown) yield, while the reported yield is grown. -/
def mkDivEntryPos (p : UserProfile) (contrib : ℚ) (j : ℕ) (s : ℚ × ℚ) : DivEntry :=
  { year := j, age := p.age + (j : ℤ),
    portfolio_value := round2 (s.1 * (107/100) + contrib),
    annual_dividend := round2 ((s.1 * (107/100) + contrib) * s.2),
    monthly_dividend := round2 ((s.1 * (107/100) + contrib) * s.2 / 12),
    dividend_yield := round2 (s.2 * (1 + 5/100) * 100) }

lemma divLoop_pos_eq (p : UserProfile) (contrib : ℚ) :
    ∀ (fuel : ℕ) (j : ℕ) (pv yld : ℚ), 1 ≤ j →
      divLoop p contrib pv yld j fuel
        = (List.range fuel).map
            (fun i => mkDivEntryPos p contrib (j + i) ((divStepG contrib)^[i] (pv, yld))) := by
  intro fuel
  induction fuel with
  | zero => intro j pv yld hj; simp [divLoop]
  | succ fuel ih =>
    intro j pv yld hj
    have hj0 : ¬ j = 0 := by omega
    simp only [divLoop, hj0, ite_false]
    rw [ih (j + 1) (pv * (107/100) + contrib) (yld * (1 + 5/100)) (by omega),
        List.range_succ_eq_map]
    simp only [List.map_cons, List.map_map]
    congr 1
    refine List.map_congr_left ?_
    intro a ha
    have hidx : j + 1 + a = j + (a + 1) := by omega
    rw [hidx]
    have hstep : (divStepG contrib) (pv, yld) = (pv * (107/100) + contrib, yld * (1 + 5/100)) :=
      rfl
    simp [Function.iterate_succ_apply, hstep]

lemma projectDividends_some_eq (p : UserProfile) (recs : List Recommendation) (h : ℕ) :
    projectDividends p recs (some h)
      = { year := 0, age := p.age + ((0 : ℕ) : ℤ),
          portfolio_value := round2 (divInit p),
          annual_dividend := round2 (divInit p * avgDividendYield recs),
          monthly_dividend := round2 (divInit p * avgDividendYield recs / 12),
          dividend_yield := round2 (avgDividendYield recs * 100) }
        :: (List.range h).map (fun i =>
            mkDivEntryPos p (divContrib p) (i + 1) (divPV p i, divYieldSeq recs i)) := by
  unfold projectDividends
  simp only [Option.getD_some]
  show divLoop p (divContrib p) (divInit p) (avgDividendYield recs) 0 (h + 1) = _
  simp only [divLoop, ite_true]
  rw [divLoop_pos_eq p (divContrib p) h 1 _ _ le_rfl]
  congr 1
  refine List.map_congr_left ?_
  intro a ha
  rw [divStepG_iterate, show 1 + a = a + 1 from by omega]

/-- Junk entry for out-of-range indexing into a dividend projection. -/
def dDivEntry : DivEntry := ⟨0, 0, 0, 0, 0, 0⟩

/-- C10 (implicit): for every year ≥ 1 the reported `dividend_yield` is
already grown for the following year — it equals
`100 × 1.05 × (annual_dividend / portfolio_value)` before display
rounding — while at year 0 it is `100 × (annual_dividend /
portfolio_value)`; the yield that produces a year's `annual_dividend` is
one growth step behind the yield that year's record reports. -/
theorem dividend_yield_skew (p : UserProfile) (recs : List Recommendation) (h i : ℕ)
    (h1 : 1 ≤ i) (h2 : i ≤ h) (hpv : divPV p i ≠ 0) (hpv0 : divPV p 0 ≠ 0) :
    ((projectDividends p recs (some h)).getD i dDivEntry).dividend_yield
        = round2 (100 * ((1 + 5/100)
            * (divPV p i * divYieldSeq recs (i - 1) / divPV p i)))
    ∧ ((projectDividends p recs (some h)).getD i dDivEntry).annual_dividend
        = round2 (divPV p i * divYieldSeq recs (i - 1))
    ∧ ((projectDividends p recs (some h)).getD 0 dDivEntry).dividend_yield
        = round2 (100 * (divPV p 0 * divYieldSeq recs 0 / divPV p 0)) := by
  obtain ⟨k, rfl⟩ : ∃ k, i = k + 1 := ⟨i - 1, by omega⟩
  have hk : k < h := by omega
  have hentry : (projectDividends p recs (some h)).getD (k + 1) dDivEntry
      = mkDivEntryPos p (divContrib p) (k + 1) (divPV p k, divYieldSeq recs k) := by
    rw [projectDividends_some_eq, List.getD_cons_succ, List.getD_eq_getElem?_getD,
        List.getElem?_map, List.getElem?_range hk]
    rfl
  have hhead : (projectDividends p recs (some h)).getD 0 dDivEntry
      = { year := 0, age := p.age + ((0 : ℕ) : ℤ),
          portfolio_value := round2 (divInit p),
          annual_dividend := round2 (divInit p * avgDividendYield recs),
          monthly_dividend := round2 (divInit p * avgDividendYield recs / 12),
          dividend_yield := round2 (avgDividendYield recs * 100) } := by
    rw [projectDividends_some_eq]
    rfl
  have hcancel : divPV p (k + 1) * divYieldSeq recs k / divPV p (k + 1)
      = divYieldSeq recs k := mul_div_cancel_left₀ _ hpv
  have hcancel0 : divPV p 0 * divYieldSeq recs 0 / divPV p 0
      = divYieldSeq recs 0 := mul_div_cancel_left₀ _ hpv0
  refine ⟨?_, ?_, ?_⟩
  · rw [hentry]
    show round2 (divYieldSeq recs k * (1 + 5/100) * 100) = _
    rw [show k + 1 - 1 = k from by omega, hcancel]
    exact congrArg round2 (by ring)
  · rw [hentry]
    show round2 ((divPV p k * (107/100) + divContrib p) * divYieldSeq recs k) = _
    rw [show k + 1 - 1 = k from by omega]
    rfl
  · rw [hhead]
    show round2 (avgDividendYield recs * 100) = _
    rw [hcancel0]
    show round2 (avgDividendYield recs * 100) = round2 (100 * avgDividendYield recs)
    exact congrArg round2 (by ring)

/-- Witness for C10 at the fixture profile with no recommendations,
horizon 2, year 1. -/
theorem dividend_yield_skew_witness :
    1 ≤ 1 ∧ (1 : ℕ) ≤ 2
    ∧ divPV (sampleProfile 35 "moderate") 1 ≠ 0
    ∧ divPV (sampleProfile 35 "moderate") 0 ≠ 0
    ∧ (((projectDividends (sampleProfile 35 "moderate") [] (some 2)).getD 1 dDivEntry).dividend_yield
        = round2 (100 * ((1 + 5/100)
            * (divPV (sampleProfile 35 "moderate") 1 * divYieldSeq [] (1 - 1)
                / divPV (sampleProfile 35 "moderate") 1)))
      ∧ ((projectDividends (sampleProfile 35 "moderate") [] (some 2)).getD 1 dDivEntry).annual_dividend
        = round2 (divPV (sampleProfile 35 "moderate") 1 * divYieldSeq [] (1 - 1))
      ∧ ((projectDividends (sampleProfile 35 "moderate") [] (some 2)).getD 0 dDivEntry).dividend_yield
        = round2 (100 * (divPV (sampleProfile 35 "moderate") 0 * divYieldSeq [] 0
            / divPV (sampleProfile 35 "moderate") 0))) :=
  ⟨le_rfl, by norm_num,
    by norm_num [divPV, divInit, divContrib, sampleProfile],
    by norm_num [divPV, divInit, sampleProfile],
    dividend_yield_skew (sampleProfile 35 "moderate") [] 2 1 le_rfl (by norm_num)
      (by norm_num [divPV, divInit, divContrib, sampleProfile])
      (by norm_num [divPV, divInit, sampleProfile])⟩

/-! ## Concrete stock fixture for witnesses -/

/-- A concrete candidate stock record. -/
def sampleStock : Stock :=
  { ticker := "AAPL"
    name := "Apple Inc."
    sector := "Technology"
    current_price := 150
    dividend_yield := 1/200
    pe_ratio := some 20
    beta := some 1
    market_cap := some 3000000000000 }

/-- Witness for C3: with one concrete candidate, its recommendation is in
the sorted list, via the membership characterization. -/
theorem recommendation_list_shape_witness :
    mkRecommendation (sampleProfile 35 "moderate") sampleStock
      ∈ sortedRecs (sampleProfile 35 "moderate") [some sampleStock] :=
  ((recommendation_list_shape (sampleProfile 35 "moderate") [some sampleStock] 1).2.2.2.1
      (mkRecommendation (sampleProfile 35 "moderate") sampleStock)).mpr
    ⟨sampleStock, by simp, by
      rw [scoreStock_eq_round2_specScore]
      have h35 : ((35 : ℤ) : ℚ) ≤ specScore sampleStock (sampleProfile 35 "moderate") := by
        exact_mod_cast specScore_ge_35 sampleStock (sampleProfile 35 "moderate")
      have hle := intCast_le_round2 h35
      have h0 : (0 : ℚ) < ((35 : ℤ) : ℚ) := by norm_num
      linarith, rfl⟩

/-- Witness for C9: the concrete candidate is never filtered out. -/
theorem score_floor_witness :
    mkRecommendation (sampleProfile 35 "moderate") sampleStock
      ∈ scoredRecs (sampleProfile 35 "moderate") [some sampleStock] :=
  (score_floor_and_lossless_filter sampleStock (sampleProfile 35 "moderate")
      [some sampleStock]).2.1 sampleStock (by simp)

end Wairren
